import Mathlib

/-!
Verification of the curdling resolution orchestrator (`curdling/install.py`).

The Python module is shallowly embedded: each collaborator call made by the
orchestrator is recorded as an explicit `Effect` in a trace, and the
collaborators' answers (installed-package database, Maestro `should_queue`,
index lookups) are supplied by an `Env` of response functions.  Pure
computations (the regex routing of downloader results, the progress
renderer's arithmetic) are translated directly.
-/

/- ------------------------------------------------------------------ -/
/- Definitions                                                        -/
/- ------------------------------------------------------------------ -/

/-- `PACKAGE_BLACKLIST` from install.py: the tuple `('setuptools',)`. -/
def PACKAGE_BLACKLIST : List String := ["setuptools"]

/-- Python `str.startswith`, modelled on the strings' character lists. -/
def startswith (s pre : String) : Bool := pre.data.isPrefixOf s.data

/-- `SUCCESS = 0` from install.py. -/
def SUCCESS : Nat := 0

/-- `FAILURE = 1` from install.py. -/
def FAILURE : Nat := 1

/-- One observable collaborator interaction performed by
`Install.request_install`.  Each constructor records one call site in the
Python body, in the order the source makes them. -/
inductive Effect where
  | logRefuse (package : String)
  | checkInstalled (package : String)
  | shouldQueue (package : String)
  | filePackage (package : String) (dependencyOf : Option String)
  | indexGet (key : String)
  | queueDependencer (requester package path : String)
  | queueCurdler (requester package path : String)
  | queueDownloader (requester package : String)
  | markRetrieved (package kind : String)
  deriving DecidableEq, Repr

/-- The answers the orchestrator's collaborators give during one
`request_install` call: `database.check_installed`, `maestro.should_queue`,
and `index.get` (where `none` models the `PackageNotFound` exception). -/
structure Env where
  installed : String → Bool
  shouldQueue : String → Bool
  index : String → Option String

/-- `Install.request_install(self, requester, package, **data)` from
install.py lines 128-170, returning the Python boolean result paired with
the trace of collaborator calls it makes.  `dependencyOf` is the only field
of `**data` the body reads (`data.get('dependency_of')`); the final
`downloader.queue(requester, package, **data)` forwards the payload
unchanged, recorded as `queueDownloader`. -/
def request_install (env : Env) (requester package : String)
    (dependencyOf : Option String) : Bool × List Effect :=
  -- for blacklisted in PACKAGE_BLACKLIST: if package.startswith(...): return False
  if PACKAGE_BLACKLIST.any (fun b => startswith package b) then
    (false, [Effect.logRefuse package])
  -- if self.database.check_installed(package): return True
  else if env.installed package then
    (true, [Effect.checkInstalled package])
  -- if not self.maestro.should_queue(package): return False
  else if !env.shouldQueue package then
    (false, [Effect.checkInstalled package, Effect.shouldQueue package])
  else
    -- self.maestro.file_package(package, dependency_of=data.get('dependency_of'))
    let pre := [Effect.checkInstalled package, Effect.shouldQueue package,
                Effect.filePackage package dependencyOf,
                Effect.indexGet (package ++ ";whl")]
    -- try: path = self.index.get("{0};whl".format(package)) ...
    match env.index (package ++ ";whl") with
    | some path =>
        (false, pre ++ [Effect.queueDependencer requester package path,
                        Effect.markRetrieved package "whl"])
    | none =>
        -- try: path = self.index.get("{0};~whl".format(package)) ...
        let pre2 := pre ++ [Effect.indexGet (package ++ ";~whl")]
        match env.index (package ++ ";~whl") with
        | some path =>
            (false, pre2 ++ [Effect.queueCurdler requester package path,
                             Effect.markRetrieved package "compressed"])
        | none =>
            -- self.downloader.queue(requester, package, **data); return False
            (false, pre2 ++ [Effect.queueDownloader requester package])

/-- Number of `queueDependencer` effects in a trace. -/
def countQueueDependencer (t : List Effect) : Nat :=
  (t.filter fun e => match e with | .queueDependencer .. => true | _ => false).length

/-- Number of `queueCurdler` effects in a trace. -/
def countQueueCurdler (t : List Effect) : Nat :=
  (t.filter fun e => match e with | .queueCurdler .. => true | _ => false).length

/-- Number of `queueDownloader` effects in a trace. -/
def countQueueDownloader (t : List Effect) : Nat :=
  (t.filter fun e => match e with | .queueDownloader .. => true | _ => false).length

/-- Index function for C1's witness: only the prebuilt key `a;whl` resolves. -/
def idxWhlOnly : String → Option String :=
  fun k => if k = "a;whl" then some "/idx/a.whl" else none

/-- Drop the last `n` characters of a character list. -/
def dropRightList (n : Nat) (cs : List Char) : List Char := cs.take (cs.length - n)

/-- Semantics of CPython `re.match(r'.*\.whl$', s)` with default flags:
`re.match` anchors at position 0; `.*` consumes a newline-free prefix;
`\.whl` is the literal `.whl`; `$` matches at the end of the string or just
before one trailing newline.  So the pattern matches iff `s` ends in `.whl`
or in `.whl` followed by a single final newline, with no newline anywhere
before that suffix. -/
def reMatch_whl (s : String) : Bool :=
  let cs := s.data
  (List.isSuffixOf ".whl".data cs && !((dropRightList 4 cs).contains '\n')) ||
  (List.isSuffixOf ".whl\n".data cs && !((dropRightList 5 cs).contains '\n'))

/-- Semantics of CPython `re.match(r'^(?!.*\.whl$)', s)`: `^` matches at
position 0 and the negative lookahead succeeds iff its inner pattern
`.*\.whl$` does not match at position 0 — which is exactly what
`re.match(r'.*\.whl$', s)` tests, so this is the pointwise negation of
`reMatch_whl`. -/
def reMatch_not_whl (s : String) : Bool := !reMatch_whl s

/-- The `only(func, pattern)` decorator from install.py lines 29-34: the
wrapped handler invokes `func(requester, package, **data)` iff
`re.match(pattern, data.get('path', ''))` succeeds, and otherwise falls
through, returning Python's implicit `None`.  `patternMatch` is the match
function of the compiled pattern and `path` the payload's optional `path`
field. -/
def only {α : Type} (func : String → String → Option String → α)
    (patternMatch : String → Bool)
    (requester package : String) (path : Option String) : Option α :=
  if patternMatch (path.getD "") then some (func requester package path) else none

/-- One downstream stage reachable from the downloader's `finished` event. -/
inductive Route where
  | curdler
  | dependencer
  deriving DecidableEq, Repr

/-- The two filter-wrapped `finished` handlers installed by
`Install.start_services` (install.py lines 67-68), in registration order:
`only(self.curdler.queue, r'^(?!.*\.whl$)')` followed by
`only(self.dependencer.queue, r'.*\.whl$')`.  Returns the stages whose
`queue` the dispatched event actually invoked. -/
def route_finished (requester package : String) (path : Option String) :
    List Route :=
  (match only (fun _ _ _ => Route.curdler) reMatch_not_whl
      requester package path with
   | some r => [r]
   | none => []) ++
  (match only (fun _ _ _ => Route.dependencer) reMatch_whl
      requester package path with
   | some r => [r]
   | none => [])

/-- The `mark(func)` decorator from install.py lines 37-41: the wrapped
handler drops the requester and calls `func(package, data['path'])`.  The
subscript `data['path']` on a payload lacking the `path` key raises
`KeyError` before `func` is called, modelled as `Except.error`. -/
def mark {α : Type} (func : String → String → α)
    (requester package : String) (path : Option String) : Except String α :=
  match path with
  | some p => Except.ok (func package p)
  | none => Except.error "KeyError"

/-- The snapshot of Maestro state that `Install.run` reads once its polling
loop has settled (`pending_packages` is empty, so `has_events` is falsy):
the full `mapping`, the `failed` view, and the data path `best_version`
yields per package. -/
structure MaestroState where
  mapping : List String
  failed : List String
  bestVersion : String → String

/-- Effects of the post-settlement phase of `Install.run`. -/
inductive RunEffect where
  | reportFailure (package : String)
  | installerStart
  | installerQueue (package path : String)
  | installerJoin
  | uploaderRun
  deriving DecidableEq, Repr

/-- `Install.report` (install.py lines 82-88): one log line per failed
package. -/
def Install.report (m : MaestroState) : List RunEffect :=
  m.failed.map RunEffect.reportFailure

/-- `Install.run_installer` (install.py lines 108-113): start the installer,
queue `best_version` of every package in the mapping, then join. -/
def Install.run_installer (m : MaestroState) : List RunEffect :=
  RunEffect.installerStart ::
    (m.mapping.map fun p => RunEffect.installerQueue p (m.bestVersion p)) ++
    [RunEffect.installerJoin]

/-- `Install.run` (install.py lines 90-106) from the settled Maestro
snapshot onward: `if self.maestro.failed: self.report(); return FAILURE`,
else `self.run_installer()`, then `self.run_uploader()` when the `upload`
option is set, and `return SUCCESS`.  The polling loop that precedes this
(sleep / progress ticks until `pending_packages` empties) only passes time
and is elided. -/
def Install.run (m : MaestroState) (upload : Bool) : Nat × List RunEffect :=
  if !m.failed.isEmpty then
    (FAILURE, Install.report m)
  else
    (SUCCESS, Install.run_installer m ++
      if upload then [RunEffect.uploaderRun] else [])

/-- Number of installer effects (start, queue, join) in a run trace. -/
def countInstaller (t : List RunEffect) : Nat :=
  (t.filter fun e => match e with
    | .installerStart => true
    | .installerQueue .. => true
    | .installerJoin => true
    | _ => false).length

/-- Maestro snapshot with one failed package, for C2's witness. -/
def mFailEx : MaestroState := ⟨["a"], ["a"], fun _ => "/dist/a"⟩

/-- Maestro snapshot with no failures, for C2's witness. -/
def mOkEx : MaestroState := ⟨["a"], [], fun _ => "/dist/a"⟩

/-- `InstallProgress.update` from install.py lines 181-209, as a function of
the Maestro snapshot fields it reads (`mapping`, `pending_packages`,
`retrieved`), returning the text written to stdout, or `none` when the
early `if not total: return` fires.  Numeric details: `built` may be
negative in Python, so it is an `Int`; `int(built / float(total) * 100.0)`
is modelled as exact integer arithmetic truncated toward zero (`Int.tdiv`);
`percent / 10` is Python 2 floor division (`Int.fdiv`); `'#' * n` with
negative `n` is the empty string (`Int.toNat`); `{1:>2}` pads the percent
to width 2. -/
def InstallProgress.update (mapping pendingPackages retrieved : List String) :
    Option String :=
  let total : Int := mapping.length
  let pending : Int := pendingPackages.length
  let built : Int := total - pending
  -- if not total: return
  if total = 0 then none
  else
    let percent : Int := Int.tdiv (built * 100) total
    let percent_count : Int := Int.fdiv percent 10
    let progress_bar := String.mk (List.replicate percent_count.toNat '#') ++
                        String.mk (List.replicate (10 - percent_count).toNat ' ')
    let pctStr := toString percent
    let pctStr := if pctStr.length < 2 then " " ++ pctStr else pctStr
    let msg1 := "\r[" ++ progress_bar ++ "] " ++ pctStr ++ "%. "
    let msg2 := "(" ++ toString total ++ " requested, " ++
                toString retrieved.length ++ " retrieved, " ++
                toString built ++ " built)"
    some (msg1 ++ msg2 ++ (if total = built then "\n" else ""))

/-- Modelled from the spec: the Maestro's `should_queue`, whose source
(maestro.py) is not under src/ — only its caller install.py is.  Spec §4.1:
"`should_queue(name) -> bool`: true iff no Attempt for `name` is currently
`queued`."  The state tracked is the number of queued Attempts for the one
package under scrutiny. -/
def maestro_should_queue (queuedAttempts : Nat) : Bool := queuedAttempts == 0

/-- Modelled from the spec: the Maestro's `file_package` (maestro.py is not
under src/).  Per spec §4.1 and §8 ("`should_queue(p)` returns false
immediately after `file_package(p)`"), filing creates the package's Attempt
in status `queued`, so it adds one queued Attempt. -/
def maestro_file_package (queuedAttempts : Nat) : Nat := queuedAttempts + 1

/-- Program counter of one thread running the guard-then-file fragment of
`request_install` (install.py lines 142-147): first call
`self.maestro.should_queue(package)` and remember the answer, then either
return (answer was false) or call `self.maestro.file_package(package)`. -/
inductive GuardPC where
  | beforeCheck
  | afterCheck (observed : Bool)
  | done
  deriving DecidableEq, Repr

/-- One atomic step of a single thread in the guard-then-file fragment.
Each individual Maestro call is atomic (spec §5 lets the State Tracker
serialize its own operations), but nothing in install.py links the
`should_queue` call to the `file_package` call that follows it. -/
def guardStep (queuedAttempts : Nat) : GuardPC → Nat × GuardPC
  | .beforeCheck =>
      (queuedAttempts, .afterCheck (maestro_should_queue queuedAttempts))
  | .afterCheck true => (maestro_file_package queuedAttempts, .done)
  | .afterCheck false => (queuedAttempts, .done)
  | .done => (queuedAttempts, .done)

/-- Shared state of two threads concurrently running `request_install` for
the same package: the Maestro's queued-Attempt count plus each thread's
program counter. -/
structure RaceState where
  queuedAttempts : Nat
  thread1 : GuardPC
  thread2 : GuardPC
  deriving DecidableEq, Repr

/-- Let the scheduled thread (`true` = thread 1) take one atomic step. -/
def raceStep (turn : Bool) (s : RaceState) : RaceState :=
  if turn then
    let (q, pc) := guardStep s.queuedAttempts s.thread1
    { s with queuedAttempts := q, thread1 := pc }
  else
    let (q, pc) := guardStep s.queuedAttempts s.thread2
    { s with queuedAttempts := q, thread2 := pc }

/-- Run both threads under an interleaving schedule. -/
def runRace (schedule : List Bool) (s : RaceState) : RaceState :=
  schedule.foldl (fun st turn => raceStep turn st) s

/- ------------------------------------------------------------------ -/
/- Theorems                                                           -/
/- ------------------------------------------------------------------ -/

/-- Claim C3: a package whose name starts with a blacklist prefix is refused
(`False`) before any collaborator is consulted: the whole trace is the single
log line — no installed-check, no State Tracker call, no index lookup, no
queueing. -/
theorem C3_blacklist_refuses_before_collaborators (env : Env)
    (requester package : String) (dependencyOf : Option String)
    (hb : PACKAGE_BLACKLIST.any (fun b => startswith package b) = true) :
    request_install env requester package dependencyOf =
      (false, [Effect.logRefuse package]) := by
  simp [request_install, hb]

/-- Witness for C3 at the concrete blacklisted package `setuptools`. -/
theorem C3_blacklist_refuses_before_collaborators_witness :
    request_install ⟨fun _ => false, fun _ => true, fun _ => none⟩
      "main" "setuptools" none = (false, [Effect.logRefuse "setuptools"]) :=
  C3_blacklist_refuses_before_collaborators _ "main" "setuptools" none (by decide)

/-- Claim C4: a non-blacklisted package reported installed by the database
yields `True` ("satisfied") and no other effect: the trace holds only the
`check_installed` probe — no `should_queue`, no `file_package`, no mark, no
index lookup, no queueing, so the State Tracker is untouched. -/
theorem C4_installed_is_pure_satisfied (env : Env)
    (requester package : String) (dependencyOf : Option String)
    (hb : PACKAGE_BLACKLIST.any (fun b => startswith package b) = false)
    (hi : env.installed package = true) :
    request_install env requester package dependencyOf =
      (true, [Effect.checkInstalled package]) := by
  simp [request_install, hb, hi]

/-- Witness for C4: package `pkg` with a database that reports it installed. -/
theorem C4_installed_is_pure_satisfied_witness :
    request_install ⟨fun _ => true, fun _ => true, fun _ => none⟩
      "main" "pkg" none = (true, [Effect.checkInstalled "pkg"]) :=
  C4_installed_is_pure_satisfied _ "main" "pkg" none (by decide) rfl

/-- Claim C5: a non-blacklisted, not-installed package for which the State
Tracker's `should_queue` answers false returns `False` ("already in flight")
with no duplicate work: no `file_package`, no index lookup, nothing queued on
any service. -/
theorem C5_in_flight_no_duplicate_work (env : Env)
    (requester package : String) (dependencyOf : Option String)
    (hb : PACKAGE_BLACKLIST.any (fun b => startswith package b) = false)
    (hi : env.installed package = false)
    (hq : env.shouldQueue package = false) :
    request_install env requester package dependencyOf =
      (false, [Effect.checkInstalled package, Effect.shouldQueue package]) := by
  simp [request_install, hb, hi, hq]

/-- Witness for C5: package `pkg`, not installed, already queued. -/
theorem C5_in_flight_no_duplicate_work_witness :
    request_install ⟨fun _ => false, fun _ => false, fun _ => none⟩
      "main" "pkg" none =
      (false, [Effect.checkInstalled "pkg", Effect.shouldQueue "pkg"]) :=
  C5_in_flight_no_duplicate_work _ "main" "pkg" none (by decide) rfl rfl

/-- Claim C1: for a non-blacklisted, not-installed, queueable package the
cascade takes exactly one branch in strict priority order — a prebuilt
artifact (`<name>;whl`) queues only the dependencer, otherwise a compressed
source (`<name>;~whl`) queues only the curdler, otherwise exactly one
downloader request is queued and nothing is built or installed. -/
theorem C1_cascade_exactly_one_branch (env : Env)
    (requester package : String) (dependencyOf : Option String)
    (hb : PACKAGE_BLACKLIST.any (fun b => startswith package b) = false)
    (hi : env.installed package = false)
    (hq : env.shouldQueue package = true) :
    (match env.index (package ++ ";whl"), env.index (package ++ ";~whl") with
     | some _, _ =>
        countQueueDependencer (request_install env requester package dependencyOf).2 = 1 ∧
        countQueueCurdler (request_install env requester package dependencyOf).2 = 0 ∧
        countQueueDownloader (request_install env requester package dependencyOf).2 = 0
     | none, some _ =>
        countQueueDependencer (request_install env requester package dependencyOf).2 = 0 ∧
        countQueueCurdler (request_install env requester package dependencyOf).2 = 1 ∧
        countQueueDownloader (request_install env requester package dependencyOf).2 = 0
     | none, none =>
        countQueueDependencer (request_install env requester package dependencyOf).2 = 0 ∧
        countQueueCurdler (request_install env requester package dependencyOf).2 = 0 ∧
        countQueueDownloader (request_install env requester package dependencyOf).2 = 1) := by
  cases hwhl : env.index (package ++ ";whl") with
  | some path =>
      simp [request_install, hb, hi, hq, hwhl,
            countQueueDependencer, countQueueCurdler, countQueueDownloader]
  | none =>
      cases hsrc : env.index (package ++ ";~whl") with
      | some path =>
          simp [request_install, hb, hi, hq, hwhl, hsrc,
                countQueueDependencer, countQueueCurdler, countQueueDownloader]
      | none =>
          simp [request_install, hb, hi, hq, hwhl, hsrc,
                countQueueDependencer, countQueueCurdler, countQueueDownloader]

/-- Witness for C1: package `a` with a prebuilt wheel in the index — the
dependencer is queued once, the curdler and downloader never. -/
theorem C1_cascade_exactly_one_branch_witness :
    countQueueDependencer
      (request_install ⟨fun _ => false, fun _ => true, idxWhlOnly⟩
        "main" "a" none).2 = 1 ∧
    countQueueCurdler
      (request_install ⟨fun _ => false, fun _ => true, idxWhlOnly⟩
        "main" "a" none).2 = 0 ∧
    countQueueDownloader
      (request_install ⟨fun _ => false, fun _ => true, idxWhlOnly⟩
        "main" "a" none).2 = 0 := by
  have h := C1_cascade_exactly_one_branch ⟨fun _ => false, fun _ => true, idxWhlOnly⟩
    "main" "a" none (by decide) rfl rfl
  simpa [idxWhlOnly] using h

/-- Counterexample to claim C7 as stated: the caller CAN distinguish
"already satisfied" from "now in flight" by the return value alone.  With
package `a` already installed, `request_install` returns `True`; with `a`
not installed, queueable, and a prebuilt wheel in the index (so the cascade
files the package and forwards it to the dependencer), it returns `False`. -/
theorem C7_counterexample :
    (request_install ⟨fun _ => true, fun _ => true, fun _ => none⟩
        "main" "a" none).1 = true ∧
    (request_install ⟨fun _ => false, fun _ => true, idxWhlOnly⟩
        "main" "a" none).1 = false ∧
    true ≠ false :=
  ⟨by decide, by decide, by decide⟩

/-- Claim C7 amended: the return value of `request_install` is the boolean
"not blacklisted and already installed" — `True` exactly for the satisfied
outcome, while refused, already-in-flight, and all three now-in-flight
cascade outcomes return the same value `False`.  So the caller can
distinguish satisfied from in-flight, but cannot distinguish refused,
already-in-flight, and now-in-flight from one another. -/
theorem C7_return_value_shape (env : Env)
    (requester package : String) (dependencyOf : Option String) :
    (request_install env requester package dependencyOf).1 =
      (!(PACKAGE_BLACKLIST.any fun b => startswith package b) &&
        env.installed package) := by
  unfold request_install
  cases hb : PACKAGE_BLACKLIST.any fun b => startswith package b
  · cases hi : env.installed package
    · cases hq : env.shouldQueue package
      · simp [hq]
      · simp only [Bool.not_true, if_false, if_true, Bool.false_and,
          Bool.not_false, Bool.true_and, hq]
        cases env.index (package ++ ";whl") <;>
          cases env.index (package ++ ";~whl") <;> simp
    · simp
  · simp

/-- Claim C6: the two filter-wrapped `finished` handlers route every
downloader result to exactly one stage, decided by the payload's `path`
field (empty string when absent): the dependencer fires iff the path
matches `.*\.whl$`, the curdler iff it does not — never both, never
neither. -/
theorem C6_finished_routes_to_exactly_one_stage
    (requester package : String) (path : Option String) :
    route_finished requester package path =
      (if reMatch_whl (path.getD "") then [Route.dependencer]
       else [Route.curdler]) := by
  unfold route_finished only reMatch_not_whl
  cases h : reMatch_whl (path.getD "") <;> simp [h]

/-- Claim C10: the `mark(func)` wrapper calls `func(package, payload.path)`
— discarding the requester — exactly when the payload carries a `path`
field, and raises `KeyError` before calling `func` otherwise, so a payload
without `path` never reaches the wrapped State Tracker transition (the
result does not depend on `func` at all in that case). -/
theorem C10_mark_projects_path_or_raises {α : Type}
    (func g : String → String → α)
    (requester requester2 package : String) (path : Option String) :
    (∀ p, mark func requester package (some p) = Except.ok (func package p)) ∧
    mark func requester package none = Except.error "KeyError" ∧
    mark func requester package path = mark func requester2 package path ∧
    mark func requester package none = mark g requester package none := by
  refine ⟨fun p => rfl, rfl, ?_, rfl⟩
  cases path <;> rfl

/-- Claim C9: with an empty Maestro mapping (`total == 0`) the progress
renderer is a no-op — `InstallProgress.update` returns before producing any
output, so the percentage division guarded behind `total == 0` is never
reached; and `update` is a total function of every snapshot. -/
theorem C9_update_noop_on_empty_mapping
    (mapping pendingPackages retrieved : List String) :
    (InstallProgress.update mapping pendingPackages retrieved).isSome =
      !mapping.isEmpty := by
  cases mapping with
  | nil => rfl
  | cons a l =>
      have hne : ¬((a :: l).length : Int) = 0 := by
        simp only [List.length_cons]
        push_cast
        omega
      unfold InstallProgress.update
      rw [if_neg hne]
      rfl

/-- Helper: the failure report contains no installer effects. -/
theorem countInstaller_report (l : List String) :
    countInstaller (l.map RunEffect.reportFailure) = 0 := by
  induction l with
  | nil => rfl
  | cons a l ih => exact ih

/-- Claim C2: `run()` is fail-closed with a two-valued exit code — a
non-empty failed set at settlement makes it report the failures and return
1 without any installer effect (never started, never queued), while an
empty failed set makes it return 0 after queueing every package of the
mapping (at its best version) on the installer. -/
theorem C2_run_fail_closed (m : MaestroState) (upload : Bool) :
    (m.failed ≠ [] →
      Install.run m upload = (FAILURE, Install.report m) ∧
      countInstaller (Install.run m upload).2 = 0) ∧
    (m.failed = [] →
      (Install.run m upload).1 = SUCCESS ∧
      ∀ p ∈ m.mapping,
        RunEffect.installerQueue p (m.bestVersion p) ∈
          (Install.run m upload).2) := by
  cases hf : m.failed with
  | cons a l =>
      refine ⟨fun _ => ?_, fun h => by simp [hf] at h⟩
      have hrun : Install.run m upload = (FAILURE, Install.report m) := by
        simp [Install.run, hf]
      refine ⟨hrun, ?_⟩
      rw [hrun]
      exact countInstaller_report m.failed
  | nil =>
      refine ⟨fun h => absurd rfl h, fun _ => ?_⟩
      have hrun : Install.run m upload =
          (SUCCESS, Install.run_installer m ++
            if upload then [RunEffect.uploaderRun] else []) := by
        simp [Install.run, hf]
      rw [hrun]
      refine ⟨rfl, fun p hp => ?_⟩
      have hmem : RunEffect.installerQueue p (m.bestVersion p) ∈
          Install.run_installer m := by
        unfold Install.run_installer
        exact List.mem_cons_of_mem _
          (List.mem_append_left _ (List.mem_map_of_mem _ hp))
      exact List.mem_append_left _ hmem

/-- Witness for C2: one snapshot with a failed package (exit 1, zero
installer effects) and one with none (exit 0, the package queued). -/
theorem C2_run_fail_closed_witness :
    (Install.run mFailEx false).1 = FAILURE ∧
    countInstaller (Install.run mFailEx false).2 = 0 ∧
    (Install.run mOkEx false).1 = SUCCESS ∧
    RunEffect.installerQueue "a" "/dist/a" ∈ (Install.run mOkEx false).2 := by
  have h1 := (C2_run_fail_closed mFailEx false).1 (by simp [mFailEx])
  have h2 := (C2_run_fail_closed mOkEx false).2 (by simp [mOkEx])
  exact ⟨by rw [h1.1], h1.2, h2.1, h2.2 "a" (by simp [mOkEx])⟩

/-- Claim C8 fails on the code: install.py calls `should_queue` and
`file_package` as two separate, unsynchronized Maestro operations, so the
check-and-file pair is NOT one atomic critical section.  Under the
interleaving "thread 1 checks, thread 2 checks, thread 1 files, thread 2
files", both threads observe `should_queue = true` before either files, and
the run ends with TWO queued Attempts for the same package — violating the
claimed at-most-one-queued-Attempt invariant the spec states the critical
section must protect. -/
theorem C8_check_then_file_race :
    runRace [true, false, true, false]
        ⟨0, GuardPC.beforeCheck, GuardPC.beforeCheck⟩ =
      ⟨2, GuardPC.done, GuardPC.done⟩ := by
  decide
